import Mathlib

/-!
Verification of the m3u8-to-mp3 converter core (src/m3u8_to_mp3_converter.py):
a shallow embedding of the playlist-resolution and segment-acquisition
pipeline, followed by theorems settling the frozen claims about it.

Network transport is modelled as an oracle `String → Nat → Option body`
(url and zero-based attempt number to the response body on success, `none`
on a transport failure), and `sys.exit(1)` sites are modelled as explicit
failure outcomes.
-/

/-! ### Python string primitives used by the source -/

/-- Whitespace test matching Python's `str.strip()` default set
(space, tab, newline, carriage return, vertical tab, form feed). -/
def pyIsSpace (c : Char) : Bool :=
  c == ' ' || c == '\t' || c == '\n' || c == '\r' || c == '\x0b' || c == '\x0c'

/-- Python `str.strip()`: drop leading and trailing whitespace. -/
def pystrip (s : String) : String :=
  String.mk (((s.data.dropWhile pyIsSpace).reverse.dropWhile pyIsSpace).reverse)

/-- Python `str.startswith(p)` as character-list prefix test. -/
def startsWithPy (s p : String) : Bool :=
  p.data.isPrefixOf s.data

/-- Worker for `splitlines`: walks the character list accumulating the
current line (reversed); emits a line at each terminator, and emits the
final accumulator only when non-empty (so a trailing terminator yields no
extra empty line, as in Python). -/
def splitlinesAux : List Char → List Char → List String
  | [], acc => if acc.isEmpty then [] else [String.mk acc.reverse]
  | '\r' :: '\n' :: rest, acc => String.mk acc.reverse :: splitlinesAux rest []
  | '\n' :: rest, acc => String.mk acc.reverse :: splitlinesAux rest []
  | '\r' :: rest, acc => String.mk acc.reverse :: splitlinesAux rest []
  | c :: rest, acc => splitlinesAux rest (c :: acc)

/-- Python `str.splitlines()` for the line terminators this format uses
(`\n`, `\r\n`, `\r`); no trailing empty line for a trailing terminator. -/
def splitlines (s : String) : List String :=
  splitlinesAux s.data []

/-! ### URL resolution

The source delegates resolution to `urllib.parse.urljoin`, which is not
part of this repository. -/

/-- Components of a URL in the RFC 3986 appendix-B decomposition. -/
structure UrlParts where
  scheme : Option String
  authority : Option String
  path : String
  query : Option String
  fragment : Option String
  deriving DecidableEq

/-- Split a character list at the first occurrence of `c`: the part before
it, and (when `c` occurs) the part after it. -/
def splitFirst (c : Char) : List Char → List Char × Option (List Char)
  | [] => ([], none)
  | x :: xs =>
    if x == c then ([], some xs)
    else
      let r := splitFirst c xs
      (x :: r.1, r.2)

/-- Modelled from the spec: URL decomposition in the style of the RFC 3986
appendix-B grammar, the parsing half of the `urllib.parse.urljoin`
primitive the source calls (not part of this repository). Fragment after
the first `#`, query after the first `?` before it, a scheme when a `:`
precedes any `/`, an authority after a leading `//` up to the next `/`. -/
def parseUrl (s : String) : UrlParts :=
  let pf := splitFirst '#' s.data
  let pq := splitFirst '?' pf.1
  let ps := splitFirst ':' pq.1
  let sr : Option String × List Char :=
    match ps.2 with
    | some afterColon =>
      if ps.1.isEmpty || ps.1.contains '/' then (none, pq.1)
      else (some (String.mk ps.1), afterColon)
    | none => (none, pq.1)
  let ap : Option String × List Char :=
    match sr.2 with
    | '/' :: '/' :: r =>
      (some (String.mk (r.takeWhile (fun c => c != '/'))), r.dropWhile (fun c => c != '/'))
    | other => (none, other)
  { scheme := sr.1, authority := ap.1, path := String.mk ap.2,
    query := pq.2.map String.mk, fragment := pf.2.map String.mk }

/-- Recompose a URL from its components. -/
def unparseUrl (u : UrlParts) : String :=
  (match u.scheme with | some s => s ++ ":" | none => "")
  ++ (match u.authority with | some a => "//" ++ a | none => "")
  ++ u.path
  ++ (match u.query with | some q => "?" ++ q | none => "")
  ++ (match u.fragment with | some f => "#" ++ f | none => "")

/-- Drop the last path segment from an output buffer, together with its
preceding slash (RFC 3986 remove-dot-segments steps 2C and 2D). -/
def removeLastSeg (out : List Char) : List Char :=
  ((out.reverse.dropWhile (fun c => c != '/')).drop 1).reverse

/-- One-pass remove-dot-segments loop (RFC 3986 section 5.2.4) on character
lists. The first argument is fuel; every step consumes at least one input
character, so fuel equal to the input length always suffices and the
fuel-exhausted arm is unreachable on such calls. -/
def rdsAux : Nat → List Char → List Char → List Char
  | 0, _, out => out
  | _ + 1, [], out => out
  | fuel + 1, '.' :: '.' :: '/' :: rest, out => rdsAux fuel rest out
  | fuel + 1, '.' :: '/' :: rest, out => rdsAux fuel rest out
  | fuel + 1, '/' :: '.' :: '/' :: rest, out => rdsAux fuel ('/' :: rest) out
  | fuel + 1, ['/', '.'], out => rdsAux fuel ['/'] out
  | fuel + 1, '/' :: '.' :: '.' :: '/' :: rest, out =>
    rdsAux fuel ('/' :: rest) (removeLastSeg out)
  | fuel + 1, ['/', '.', '.'], out => rdsAux fuel ['/'] (removeLastSeg out)
  | _ + 1, ['.'], out => out
  | _ + 1, ['.', '.'], out => out
  | fuel + 1, c :: rest, out =>
    rdsAux fuel (rest.dropWhile (fun x => x != '/'))
      (out ++ c :: rest.takeWhile (fun x => x != '/'))

/-- RFC 3986 section 5.2.4 remove-dot-segments on a path string. -/
def removeDotSegments (s : String) : String :=
  String.mk (rdsAux s.data.length s.data [])

/-- RFC 3986 section 5.3 path merge: against an authority-bearing base with
an empty path the reference is rooted; otherwise it replaces everything
after the last slash of the base path. -/
def mergePaths (b : UrlParts) (rpath : String) : String :=
  if b.authority.isSome && b.path == "" then "/" ++ rpath
  else String.mk ((b.path.data.reverse.dropWhile (fun c => c != '/')).reverse) ++ rpath

/-- Modelled from the spec: `urllib.parse.urljoin`, the resolution
primitive the source calls, is not part of this repository; the spec
describes it as standard base-plus-relative resolution in which absolute
references (those carrying a scheme) pass through unchanged and relative
references are joined against the base RFC 3986 style (section 5.3
transformation with section 5.2.4 dot-segment removal). -/
def urljoin (base url : String) : String :=
  let r := parseUrl url
  if r.scheme.isSome then url
  else
    let b := parseUrl base
    let t : UrlParts :=
      if r.authority.isSome then
        { scheme := b.scheme, authority := r.authority,
          path := removeDotSegments r.path, query := r.query, fragment := r.fragment }
      else if r.path == "" then
        { scheme := b.scheme, authority := b.authority, path := b.path,
          query := if r.query.isSome then r.query else b.query, fragment := r.fragment }
      else if startsWithPy r.path "/" then
        { scheme := b.scheme, authority := b.authority,
          path := removeDotSegments r.path, query := r.query, fragment := r.fragment }
      else
        { scheme := b.scheme, authority := b.authority,
          path := removeDotSegments (mergePaths b r.path), query := r.query, fragment := r.fragment }
    unparseUrl t

/-! ### The source functions (src/m3u8_to_mp3_converter.py) -/

/-- Source lines 9-22: a playlist is a master playlist when some line
starts with the stream-info tag (the for loop returns True at the first
such line, else False after the loop). -/
def is_master_playlist (m3u8_content : String) : Bool :=
  (splitlines m3u8_content).any (fun line => startsWithPy line "#EXT-X-STREAM-INF")

/-- Worker for `select_variant_playlist`, mirroring the indexed loop of
source lines 36-42: at the first stream-info line, when a following line
exists, return that line stripped and joined against the base; when the
stream-info line is the last line the loop runs out and yields None. -/
def selectAux (base_url : String) : List String → Option String
  | [] => none
  | line :: rest =>
    if startsWithPy line "#EXT-X-STREAM-INF" then
      match rest with
      | next :: _ => some (urljoin base_url (pystrip next))
      | [] => none
    else selectAux base_url rest

/-- Source lines 24-43: select the first variant playlist URL from a
master playlist, `none` when the loop finds no stream-info line with a
following line. -/
def select_variant_playlist (m3u8_content base_url : String) : Option String :=
  selectAux base_url (splitlines m3u8_content)

/-- Bounded retry loop of source lines 59-69 and 116-126, against a
transport oracle giving each attempt's outcome; the second argument is the
current attempt index, the third the remaining iterations of
`while attempt < max_attempts`. Exhausting the attempts is the
`sys.exit(1)` path, modelled as `none`. -/
def retry_loop {α : Type} (tr : Nat → Option α) : Nat → Nat → Option α
  | _, 0 => none
  | attempt, n + 1 =>
    match tr attempt with
    | some body => some body
    | none => retry_loop tr (attempt + 1) n

/-- A whole fetch with retry: attempts 0, 1, ... up to `max_attempts`
iterations, as both fetch sites run it with `attempt = 0`. -/
def fetch_with_retry {α : Type} (tr : Nat → Option α) (max_attempts : Nat) : Option α :=
  retry_loop tr 0 max_attempts

/-- Source line 72: `m3u8_url.rsplit('/', 1)[0] + '/'` — everything before
the last slash (the whole string when it has no slash), plus a slash. -/
def rsplitBase (url : String) : String :=
  if url.data.contains '/' then
    String.mk (((url.data.reverse.dropWhile (fun c => c != '/')).drop 1).reverse) ++ "/"
  else url ++ "/"

/-- Segment-collection loop of source lines 87-92: strip each line, skip
empty lines and lines starting with the comment marker, and resolve every
other line against the playlist URL, in order. -/
def collect_segments (m3u8_url : String) : List String → List String
  | [] => []
  | l :: rest =>
    let line := pystrip l
    if line == "" || startsWithPy line "#" then collect_segments m3u8_url rest
    else urljoin m3u8_url line :: collect_segments m3u8_url rest

/-- The distinct `sys.exit(1)` sites of `download_m3u8_playlist`,
distinguished by their printed messages. -/
inductive ExitCause where
  | fetchFailed
  | noVariant
  | noSegments
  deriving DecidableEq

/-- Outcome of `download_m3u8_playlist`: a segment-URL list or a process
exit. -/
inductive DownloadResult where
  | ok (segment_urls : List String)
  | exit (c : ExitCause)
  deriving DecidableEq

/-- Source lines 45-98. The network is an oracle from URL and attempt
number to the response body. The recursion of line 81
(`return download_m3u8_playlist(variant_url)`) has no bound in the source,
so the embedding is fuel-indexed: `none` means the computation is still
recursing after consuming its fuel (one unit per playlist fetched), and
`some r` means it terminated with result `r` within that many steps. The
`if not variant_url` test of line 77 is falsy for both `None` and the
empty string, and `if not segment_urls` of line 94 for the empty list. -/
def download_m3u8_playlist (net : String → Nat → Option String) :
    Nat → String → Option DownloadResult
  | 0, _ => none
  | fuel + 1, m3u8_url =>
    match fetch_with_retry (net m3u8_url) 3 with
    | none => some (.exit .fetchFailed)
    | some content =>
      if is_master_playlist content then
        match select_variant_playlist content (rsplitBase m3u8_url) with
        | none => some (.exit .noVariant)
        | some variant_url =>
          if variant_url = "" then some (.exit .noVariant)
          else download_m3u8_playlist net fuel variant_url
      else
        if collect_segments m3u8_url (splitlines content) = [] then some (.exit .noSegments)
        else some (.ok (collect_segments m3u8_url (splitlines content)))

/-- Source lines 100-126, the fetch-with-retry portion of
`download_segment` (the remainder writes the response body to a file and
names it; the bytes written are the body returned here). `none` is the
exhausted-retries `sys.exit(1)`. Bytes are modelled as lists of byte
values. -/
def download_segment (net : String → Nat → Option (List Nat)) (segment_url : String) :
    Option (List Nat) :=
  fetch_with_retry (net segment_url) 3

/-- The segment loop of `main` (source lines 221-224): download each URL
in order, fail-fast; `none` when any segment exhausts its retries
(no partial result). -/
def download_all_segments (net : String → Nat → Option (List Nat)) :
    List String → Option (List (List Nat))
  | [] => some []
  | u :: rest =>
    match download_segment net u with
    | none => none
    | some b =>
      match download_all_segments net rest with
      | none => none
      | some bs => some (b :: bs)

/-- The URLs for which the segment loop issues a request: on a failure the
process exits, so no later URL is attempted. -/
def attempted_urls (net : String → Nat → Option (List Nat)) :
    List String → List String
  | [] => []
  | u :: rest =>
    match download_segment net u with
    | none => [u]
    | some _ => u :: attempted_urls net rest

/-- The write loop of source lines 159-162: the output file accumulates
each segment's bytes in turn. -/
def writeAll (outfile : List Nat) : List (List Nat) → List Nat
  | [] => outfile
  | segment :: rest => writeAll (outfile ++ segment) rest

/-- Source lines 150-165: concatenate the segment files' bytes, in list
order, into one output. -/
def concatenate_segments (contents : List (List Nat)) : List Nat :=
  writeAll [] contents

/-- Modelled from the spec: `extractSegmentReferences` (spec 4.1) — the
source has no separate extraction function; lines 87-92 of
`download_m3u8_playlist` fuse this extraction with URL resolution
(`collect_segments`). Per the spec: trim each line, skip blank lines and
lines starting with the comment marker, keep every other line in order. -/
def extractRefsAux : List String → List String
  | [] => []
  | l :: rest =>
    let t := pystrip l
    if t == "" || startsWithPy t "#" then extractRefsAux rest
    else t :: extractRefsAux rest

/-- Segment-reference extraction on a document (spec 4.1 wrapper around
`extractRefsAux`). -/
def extract_segment_references (content : String) : List String :=
  extractRefsAux (splitlines content)

/-- Rendition extraction per spec 4.1 `extractRenditions`, the derived
view the scan in `select_variant_playlist` walks: every stream-info line
paired with the line that follows it (whatever that line is); a
stream-info line with no following line — necessarily the document's last
line — yields no entry. -/
def extract_renditions : List String → List (String × String)
  | [] => []
  | line :: rest =>
    if startsWithPy line "#EXT-X-STREAM-INF" then
      match rest with
      | next :: _ => (line, next) :: extract_renditions rest
      | [] => []
    else extract_renditions rest

/-! ### Concrete transports and documents used as test inputs -/

/-- A network on which every URL serves a master playlist whose single
variant resolves back to the same URL: a cyclic master chain. -/
def selfLoopNet : String → Nat → Option String :=
  fun _ _ => some "#EXT-X-STREAM-INF:BANDWIDTH=1\nself.m3u8"

/-- A network serving a two-segment media playlist. -/
def mediaNet : String → Nat → Option String :=
  fun _ _ => some "#EXTM3U\nseg_000.ts\nseg_001.ts\n"

/-- A network serving a media playlist with no segment lines. -/
def emptyMediaNet : String → Nat → Option String :=
  fun _ _ => some "#EXTM3U\n"

/-- A network on which every attempt fails. -/
def failNet : String → Nat → Option String :=
  fun _ _ => none

/-- A network serving a master playlist whose stream-info line is the last
line, so no variant can be selected. -/
def masterOnlyNet : String → Nat → Option String :=
  fun _ _ => some "#EXT-X-STREAM-INF:BANDWIDTH=1"

/-- A transport failing on attempts 0 and 1 and succeeding on attempt 2. -/
def thirdTryTransport : Nat → Option (List Nat) :=
  fun n => if n = 2 then some [7] else none

/-- A segment network on which only the URL `u1` is downloadable. -/
def segNetFirstOnly : String → Nat → Option (List Nat) :=
  fun u _ => if u = "u1" then some [1] else none

/-! ### Helper lemmas -/

theorem retry_loop_succ {α : Type} (tr : Nat → Option α) (a n : Nat) :
    retry_loop tr a (n + 1)
      = match tr a with | some body => some body | none => retry_loop tr (a + 1) n := rfl

theorem fetch3_third {α : Type} (tr : Nat → Option α) (b : α)
    (h0 : tr 0 = none) (h1 : tr 1 = none) (h2 : tr 2 = some b) :
    fetch_with_retry tr 3 = some b := by
  show retry_loop tr 0 (2 + 1) = some b
  rw [retry_loop_succ, h0]
  show retry_loop tr 1 (1 + 1) = some b
  rw [retry_loop_succ, h1]
  show retry_loop tr 2 (0 + 1) = some b
  rw [retry_loop_succ, h2]

theorem fetch3_none {α : Type} (tr : Nat → Option α)
    (h0 : tr 0 = none) (h1 : tr 1 = none) (h2 : tr 2 = none) :
    fetch_with_retry tr 3 = none := by
  show retry_loop tr 0 (2 + 1) = none
  rw [retry_loop_succ, h0]
  show retry_loop tr 1 (1 + 1) = none
  rw [retry_loop_succ, h1]
  show retry_loop tr 2 (0 + 1) = none
  rw [retry_loop_succ, h2]
  rfl

theorem selectAux_append_skip (base : String) :
    ∀ (pre ls : List String),
      (∀ l ∈ pre, startsWithPy l "#EXT-X-STREAM-INF" = false) →
      selectAux base (pre ++ ls) = selectAux base ls := by
  intro pre
  induction pre with
  | nil => intro ls _; rfl
  | cons p ps ih =>
    intro ls h
    have hp := h p (List.mem_cons_self p ps)
    have hps : ∀ l ∈ ps, startsWithPy l "#EXT-X-STREAM-INF" = false :=
      fun l hl => h l (List.mem_cons_of_mem p hl)
    rw [List.cons_append]
    simp only [selectAux, hp, Bool.false_eq_true, if_false]
    exact ih ls hps

theorem selectAux_of_renditions_cons (base : String) :
    ∀ (lines : List String) (a u : String) (rs : List (String × String)),
      extract_renditions lines = (a, u) :: rs →
      selectAux base lines = some (urljoin base (pystrip u)) := by
  intro lines
  induction lines with
  | nil => intro a u rs h; simp [extract_renditions] at h
  | cons line rest ih =>
    intro a u rs h
    cases hs : startsWithPy line "#EXT-X-STREAM-INF" with
    | true =>
      cases rest with
      | nil => simp [extract_renditions, hs] at h
      | cons next r2 =>
        simp only [extract_renditions, hs, if_true] at h
        obtain ⟨h1, -⟩ := List.cons.injEq .. ▸ h
        obtain ⟨-, hu⟩ := Prod.mk.injEq .. ▸ h1
        simp [selectAux, hs, hu]
    | false =>
      simp only [extract_renditions, hs, Bool.false_eq_true, if_false] at h
      simp only [selectAux, hs, Bool.false_eq_true, if_false]
      exact ih a u rs h

theorem selectAux_of_renditions_nil (base : String) :
    ∀ lines : List String, extract_renditions lines = [] → selectAux base lines = none := by
  intro lines
  induction lines with
  | nil => intro _; rfl
  | cons line rest ih =>
    intro h
    cases hs : startsWithPy line "#EXT-X-STREAM-INF" with
    | true =>
      cases rest with
      | nil => simp [selectAux, hs]
      | cons next r2 => simp [extract_renditions, hs] at h
    | false =>
      simp only [extract_renditions, hs, Bool.false_eq_true, if_false] at h
      simp only [selectAux, hs, Bool.false_eq_true, if_false]
      exact ih h

theorem extractRefsAux_eq (ls : List String) :
    extractRefsAux ls
      = ((ls.map pystrip).filter (fun t => !(t == "" || startsWithPy t "#"))) := by
  induction ls with
  | nil => rfl
  | cons l rest ih =>
    simp only [extractRefsAux, List.map_cons, List.filter_cons]
    cases h : (pystrip l == "" || startsWithPy (pystrip l) "#") with
    | true => simp [h, ih]
    | false => simp [h, ih]

theorem collect_segments_eq (url : String) (ls : List String) :
    collect_segments url ls = (extractRefsAux ls).map (urljoin url) := by
  induction ls with
  | nil => rfl
  | cons l rest ih =>
    simp only [collect_segments, extractRefsAux]
    cases h : (pystrip l == "" || startsWithPy (pystrip l) "#") with
    | true => simp [h, ih]
    | false => simp [h, ih]

theorem writeAll_eq (l : List (List Nat)) : ∀ acc, writeAll acc l = acc ++ l.flatten := by
  induction l with
  | nil => intro acc; simp [writeAll]
  | cons s rest ih => intro acc; simp [writeAll, ih, List.flatten]

theorem download_fetchFailed (net : String → Nat → Option String) (fuel : Nat) (url : String)
    (hf : fetch_with_retry (net url) 3 = none) :
    download_m3u8_playlist net (fuel + 1) url = some (.exit .fetchFailed) := by
  simp [download_m3u8_playlist, hf]

theorem download_master_noVariant (net : String → Nat → Option String) (fuel : Nat)
    (url content : String)
    (hf : fetch_with_retry (net url) 3 = some content)
    (hm : is_master_playlist content = true)
    (hs : select_variant_playlist content (rsplitBase url) = none) :
    download_m3u8_playlist net (fuel + 1) url = some (.exit .noVariant) := by
  simp [download_m3u8_playlist, hf, hm, hs]

theorem download_media_noSegments (net : String → Nat → Option String) (fuel : Nat)
    (url content : String)
    (hf : fetch_with_retry (net url) 3 = some content)
    (hm : is_master_playlist content = false)
    (hc : collect_segments url (splitlines content) = []) :
    download_m3u8_playlist net (fuel + 1) url = some (.exit .noSegments) := by
  simp [download_m3u8_playlist, hf, hm, hc]

theorem download_ok_ne_nil (net : String → Nat → Option String) :
    ∀ (fuel : Nat) (url : String) (r : List String),
      download_m3u8_playlist net fuel url = some (.ok r) → r ≠ [] := by
  intro fuel
  induction fuel with
  | zero => intro url r h; simp [download_m3u8_playlist] at h
  | succ n ih =>
    intro url r h
    simp only [download_m3u8_playlist] at h
    split at h
    · simp at h
    · split at h
      · split at h
        · simp at h
        · split at h
          · simp at h
          · exact ih _ _ h
      · split at h
        · simp at h
        · next hne =>
            simp only [Option.some.injEq, DownloadResult.ok.injEq] at h
            exact fun hr => hne (h.trans hr)

theorem download_all_abort (net : String → Nat → Option (List Nat)) (u : String)
    (rest : List String) :
    ∀ pre : List String,
      pre.all (fun v => (download_segment net v).isSome) = true →
      download_segment net u = none →
      download_all_segments net (pre ++ u :: rest) = none
      ∧ attempted_urls net (pre ++ u :: rest) = pre ++ [u] := by
  intro pre
  induction pre with
  | nil =>
    intro _ hu
    constructor
    · simp [download_all_segments, hu]
    · simp [attempted_urls, hu]
  | cons v ps ih =>
    intro hall hu
    simp only [List.all_cons, Bool.and_eq_true] at hall
    obtain ⟨b, hb⟩ := Option.isSome_iff_exists.mp hall.1
    have hrec := ih hall.2 hu
    constructor
    · simp [download_all_segments, hb, hrec.1]
    · simp [attempted_urls, hb, hrec.2]

theorem urljoin_empty_ref (base : String)
    (h1 : (parseUrl base).fragment = none)
    (h2 : unparseUrl (parseUrl base) = base) :
    urljoin base "" = base := by
  have hr : parseUrl ""
      = { scheme := none, authority := none, path := "", query := none, fragment := none } := rfl
  simp only [urljoin, hr, Option.isSome_none, Bool.false_eq_true, if_false, ite_false]
  simp only [beq_self_eq_true, if_true, ite_true, Option.isSome_none]
  rw [← h1]
  exact h2

theorem selfLoop_step (fuel : Nat) :
    download_m3u8_playlist selfLoopNet (fuel + 1) "http://h/self.m3u8"
      = download_m3u8_playlist selfLoopNet fuel "http://h/self.m3u8" := rfl

/-! ### Claim theorems -/

/-- C1, counterexample (corrected): the claim says resolution caps the
master-chain recursion depth at 5 and fails with a RecursionLimitError
beyond it. On a cyclic master chain (every fetch returns a master playlist
whose variant resolves back to the same URL), after fuel for 6 playlist
fetches — more than the claimed cap — the code has produced no outcome at
all (it is still recursing), and the source has no recursion-limit failure
site: its only exits are fetch failure, no variant, and no segments. -/
theorem C1_counterexample :
    download_m3u8_playlist selfLoopNet 6 "http://h/self.m3u8" = none := by
  decide

/-- C1, amended (corrected): the recursion of `download_m3u8_playlist` on
a master playlist chain is unbounded — there is no depth guard and no
recursion-limit error. On a cyclic master chain the resolution never
terminates: for every fuel bound, that many recursion steps complete
without any outcome. -/
theorem C1_amended_unbounded_recursion :
    ∀ fuel : Nat,
      download_m3u8_playlist selfLoopNet fuel "http://h/self.m3u8" = none := by
  intro fuel
  induction fuel with
  | zero => rfl
  | succ n ih => rw [selfLoop_step]; exact ih

/-- C2, counterexample (corrected): the claim says the URI of a
stream-info attribute line is the next non-skipped line, with blank lines
not counting. In the document whose stream-info line is followed by a
blank line and then `real/index.m3u8`, the code joins the blank line
itself (yielding the base URL), not the next non-blank line resolved. -/
theorem C2_counterexample :
    select_variant_playlist "#EXT-X-STREAM-INF:BANDWIDTH=128000\n\nreal/index.m3u8" "http://h/d/"
      = some "http://h/d/"
    ∧ some "http://h/d/" ≠ some (urljoin "http://h/d/" "real/index.m3u8") := by
  constructor
  · decide
  · decide

/-- C2, amended (corrected): the URI associated with a stream-info
attribute line is the immediately following line, whitespace-stripped,
whatever that line holds (blank and comment lines are not skipped over);
an attribute line with no following line at all — necessarily the last
line of the document — yields no rendition and selection returns none. -/
theorem C2_amended_immediate_next_line :
    ∀ (base_url : String) (pre : List String) (line next : String) (rest : List String),
      (∀ l ∈ pre, startsWithPy l "#EXT-X-STREAM-INF" = false) →
      startsWithPy line "#EXT-X-STREAM-INF" = true →
      selectAux base_url (pre ++ line :: next :: rest)
          = some (urljoin base_url (pystrip next))
      ∧ selectAux base_url (pre ++ [line]) = none := by
  intro base pre line next rest hpre hline
  constructor
  · rw [selectAux_append_skip base pre _ hpre]
    simp [selectAux, hline]
  · rw [selectAux_append_skip base pre _ hpre]
    simp [selectAux, hline]

/-- C2, witness for the amended theorem at a concrete document: the line
after the stream-info tag is blank, and is still taken as the URI. -/
theorem C2_witness :
    selectAux "http://h/" ["#EXTM3U", "#EXT-X-STREAM-INF:BANDWIDTH=1", "", "u.m3u8"]
        = some (urljoin "http://h/" (pystrip ""))
    ∧ selectAux "http://h/" ["#EXTM3U", "#EXT-X-STREAM-INF:BANDWIDTH=1"] = none :=
  C2_amended_immediate_next_line "http://h/" ["#EXTM3U"] "#EXT-X-STREAM-INF:BANDWIDTH=1" ""
    ["u.m3u8"] (by decide) (by decide)

/-- C3 (confirmed, spec-modelled resolver): URI resolution passes absolute
references (those carrying a scheme) through unchanged and joins relative
references against the base RFC 3986 style; in particular the two examples
of the claim hold, and they hold at both call sites — the segment loop
(resolving against the playlist URL) and variant selection (resolving
against the directory base the resolver derives from the master URL). -/
theorem C3_resolve_rfc :
    (∀ base ref : String, (parseUrl ref).scheme.isSome = true → urljoin base ref = ref)
    ∧ urljoin "http://host/path/playlist.m3u8" "seg1.ts" = "http://host/path/seg1.ts"
    ∧ urljoin "http://host/path/playlist.m3u8" "http://other/seg1.ts" = "http://other/seg1.ts"
    ∧ collect_segments "http://host/path/playlist.m3u8" ["seg1.ts", "http://other/seg1.ts"]
        = ["http://host/path/seg1.ts", "http://other/seg1.ts"]
    ∧ select_variant_playlist "#EXT-X-STREAM-INF:BANDWIDTH=128000\nseg1.ts"
        (rsplitBase "http://host/path/playlist.m3u8") = some "http://host/path/seg1.ts" := by
  refine ⟨?_, by decide, by decide, by decide, by decide⟩
  intro base ref h
  simp [urljoin, h]

/-- C3, witness: the absolute-reference conjunct applied at a concrete
absolute reference. -/
theorem C3_witness :
    (parseUrl "http://other/seg1.ts").scheme.isSome = true
    ∧ urljoin "http://a/b" "http://other/seg1.ts" = "http://other/seg1.ts" :=
  ⟨by decide, C3_resolve_rfc.1 "http://a/b" "http://other/seg1.ts" (by decide)⟩

/-- C4 (confirmed): segment-reference extraction trims every line, skips
blank lines and lines starting with the comment marker, and keeps every
other line, in document order — so it returns exactly as many references
as there are non-blank, non-comment lines; and the media branch of the
resolver is exactly this extraction followed by resolving each reference
against the playlist URL, in order. -/
theorem C4_extract_references (url content : String) :
    extract_segment_references content
        = ((splitlines content).map pystrip).filter (fun t => !(t == "" || startsWithPy t "#"))
    ∧ (extract_segment_references content).length
        = ((splitlines content).map pystrip).countP (fun t => !(t == "" || startsWithPy t "#"))
    ∧ collect_segments url (splitlines content)
        = (extract_segment_references content).map (urljoin url) := by
  refine ⟨extractRefsAux_eq _, ?_, collect_segments_eq url _⟩
  rw [extract_segment_references, extractRefsAux_eq, List.countP_eq_length_filter]

/-- C5 (confirmed): when the rendition sequence of a master playlist is
non-empty, variant selection returns the first rendition's URI (stripped)
resolved against the base URL — never a later rendition, never a
bandwidth-based choice; when it is empty, selection returns none, which
the resolver turns into the no-variant terminal failure. -/
theorem C5_select_first :
    (∀ (content base_url a u : String) (rs : List (String × String)),
        extract_renditions (splitlines content) = (a, u) :: rs →
        select_variant_playlist content base_url = some (urljoin base_url (pystrip u)))
    ∧ (∀ content base_url : String,
        extract_renditions (splitlines content) = [] →
        select_variant_playlist content base_url = none)
    ∧ (∀ (net : String → Nat → Option String) (fuel : Nat) (url content : String),
        fetch_with_retry (net url) 3 = some content →
        is_master_playlist content = true →
        select_variant_playlist content (rsplitBase url) = none →
        download_m3u8_playlist net (fuel + 1) url = some (.exit .noVariant)) :=
  ⟨fun content base a u rs h => selectAux_of_renditions_cons base (splitlines content) a u rs h,
   fun content base h => selectAux_of_renditions_nil base (splitlines content) h,
   fun net fuel url content hf hm hs => download_master_noVariant net fuel url content hf hm hs⟩

/-- C5, witness: on the two-rendition bandwidth example the first-listed
rendition is selected; on a master playlist with no rendition entry,
selection is none and the resolver exits with the no-variant failure. -/
theorem C5_witness :
    select_variant_playlist
        "#EXT-X-STREAM-INF:BANDWIDTH=128000\nlow/index.m3u8\n#EXT-X-STREAM-INF:BANDWIDTH=256000\nhigh/index.m3u8\n"
        "http://cdn/stream/"
        = some (urljoin "http://cdn/stream/" (pystrip "low/index.m3u8"))
    ∧ select_variant_playlist "#EXTM3U\nseg.ts" "http://cdn/stream/" = none
    ∧ download_m3u8_playlist masterOnlyNet 1 "http://cdn/master.m3u8"
        = some (.exit .noVariant) :=
  ⟨C5_select_first.1
      "#EXT-X-STREAM-INF:BANDWIDTH=128000\nlow/index.m3u8\n#EXT-X-STREAM-INF:BANDWIDTH=256000\nhigh/index.m3u8\n"
      "http://cdn/stream/" "#EXT-X-STREAM-INF:BANDWIDTH=128000" "low/index.m3u8"
      [("#EXT-X-STREAM-INF:BANDWIDTH=256000", "high/index.m3u8")] (by decide),
   C5_select_first.2.1 "#EXTM3U\nseg.ts" "http://cdn/stream/" (by decide),
   C5_select_first.2.2 masterOnlyNet 0 "http://cdn/master.m3u8" "#EXT-X-STREAM-INF:BANDWIDTH=1"
      (by decide) (by decide) (by decide)⟩

/-- C6 (confirmed): classification is total (a Lean function on all
documents) and returns Master exactly when some line of the document
begins with the stream-info tag marker, Media otherwise. -/
theorem C6_classify_master_iff (content : String) :
    is_master_playlist content = true
      ↔ ∃ line ∈ splitlines content, startsWithPy line "#EXT-X-STREAM-INF" = true := by
  simp [is_master_playlist, List.any_eq_true]

/-- C7 (confirmed): both fetch sites run a bounded loop of at most 3
attempts. A transport failing attempts 0 and 1 and succeeding on attempt 2
yields the success; one failing all three attempts yields the exhausted
failure regardless of what any later attempt would return. In the segment
loop, such a failure aborts the pipeline: no result is produced (no
partial output) and no URL after the failing one is attempted; in the
playlist fetch it is the fetch-failure exit. -/
theorem C7_bounded_retry :
    (∀ (α : Type) (tr : Nat → Option α) (b : α),
        tr 0 = none → tr 1 = none → tr 2 = some b → fetch_with_retry tr 3 = some b)
    ∧ (∀ (α : Type) (tr : Nat → Option α),
        tr 0 = none → tr 1 = none → tr 2 = none → fetch_with_retry tr 3 = none)
    ∧ (∀ (net : String → Nat → Option (List Nat)) (pre : List String) (u : String)
          (rest : List String),
        pre.all (fun v => (download_segment net v).isSome) = true →
        download_segment net u = none →
        download_all_segments net (pre ++ u :: rest) = none
        ∧ attempted_urls net (pre ++ u :: rest) = pre ++ [u])
    ∧ (∀ (net : String → Nat → Option String) (fuel : Nat) (url : String),
        fetch_with_retry (net url) 3 = none →
        download_m3u8_playlist net (fuel + 1) url = some (.exit .fetchFailed)) :=
  ⟨fun _ tr b h0 h1 h2 => fetch3_third tr b h0 h1 h2,
   fun _ tr h0 h1 h2 => fetch3_none tr h0 h1 h2,
   fun net pre u rest hall hu => download_all_abort net u rest pre hall hu,
   fun net fuel url hf => download_fetchFailed net fuel url hf⟩

/-- C7, witness: a transport succeeding on its third attempt, one failing
all three, a segment list whose second URL is undownloadable (the third is
never attempted and no partial result is returned), and a playlist fetch
whose retries are exhausted. -/
theorem C7_witness :
    fetch_with_retry thirdTryTransport 3 = some [7]
    ∧ fetch_with_retry (fun _ => (none : Option (List Nat))) 3 = none
    ∧ (download_all_segments segNetFirstOnly ["u1", "u2", "u3"] = none
        ∧ attempted_urls segNetFirstOnly ["u1", "u2", "u3"] = ["u1", "u2"])
    ∧ download_m3u8_playlist failNet 1 "http://x/p.m3u8" = some (.exit .fetchFailed) :=
  ⟨C7_bounded_retry.1 (List Nat) thirdTryTransport [7] (by decide) (by decide) (by decide),
   C7_bounded_retry.2.1 (List Nat) (fun _ => none) rfl rfl rfl,
   C7_bounded_retry.2.2.1 segNetFirstOnly ["u1"] "u2" ["u3"] (by decide) (by decide),
   C7_bounded_retry.2.2.2 failNet 0 "http://x/p.m3u8" rfl⟩

/-- C8 (confirmed): a media playlist whose segment extraction is empty
makes the resolver exit with the no-segments failure rather than return an
empty list, and consequently every successfully returned segment-URL list
is non-empty. -/
theorem C8_nonempty_or_noSegments :
    (∀ (net : String → Nat → Option String) (fuel : Nat) (url : String) (r : List String),
        download_m3u8_playlist net fuel url = some (.ok r) → r ≠ [])
    ∧ (∀ (net : String → Nat → Option String) (fuel : Nat) (url content : String),
        fetch_with_retry (net url) 3 = some content →
        is_master_playlist content = false →
        collect_segments url (splitlines content) = [] →
        download_m3u8_playlist net (fuel + 1) url = some (.exit .noSegments)) :=
  ⟨fun net fuel url r h => download_ok_ne_nil net fuel url r h,
   fun net fuel url content hf hm hc => download_media_noSegments net fuel url content hf hm hc⟩

/-- C8, witness: a successful resolution yields a non-empty list, and a
media playlist with only tag lines exits with the no-segments failure. -/
theorem C8_witness :
    (["http://cdn/stream/seg_000.ts", "http://cdn/stream/seg_001.ts"] : List String) ≠ []
    ∧ download_m3u8_playlist emptyMediaNet 1 "http://cdn/stream/index.m3u8"
        = some (.exit .noSegments) :=
  ⟨C8_nonempty_or_noSegments.1 mediaNet 1 "http://cdn/stream/index.m3u8"
      ["http://cdn/stream/seg_000.ts", "http://cdn/stream/seg_001.ts"] (by decide),
   C8_nonempty_or_noSegments.2 emptyMediaNet 0 "http://cdn/stream/index.m3u8" "#EXTM3U\n"
      (by decide) (by decide) (by decide)⟩

/-- C9 (confirmed): concatenation writes each segment's bytes, in the
order of the (index-tagged) input list, into one contiguous output — the
byte-wise flattening of the buffers, with no separator or marker — and on
the byte contents of "AA", "BB", "CC" it produces exactly "AABBCC". -/
theorem C9_concatenate (contents : List (List Nat)) :
    concatenate_segments contents = contents.flatten
    ∧ concatenate_segments [[65, 65], [66, 66], [67, 67]] = [65, 65, 66, 66, 67, 67] := by
  constructor
  · rw [concatenate_segments, writeAll_eq]
    rfl
  · decide

/-- C10 (confirmed): when the first stream-info line of a master playlist
is immediately followed by a blank or whitespace-only line, variant
selection joins the empty string against the base and so returns the base
URL itself (for any base that round-trips through URL decomposition and
carries no fragment) — not none and not a later rendition's URI. -/
theorem C10_blank_uri_selects_base :
    ∀ (content base_url : String) (pre : List String) (line next : String) (rest : List String),
      splitlines content = pre ++ line :: next :: rest →
      (∀ l ∈ pre, startsWithPy l "#EXT-X-STREAM-INF" = false) →
      startsWithPy line "#EXT-X-STREAM-INF" = true →
      pystrip next = "" →
      (parseUrl base_url).fragment = none →
      unparseUrl (parseUrl base_url) = base_url →
      select_variant_playlist content base_url = some base_url := by
  intro content base pre line next rest hsplit hpre hline hnext hfrag hround
  show selectAux base (splitlines content) = some base
  rw [hsplit, selectAux_append_skip base pre _ hpre]
  simp only [selectAux, hline, if_true, hnext]
  rw [urljoin_empty_ref base hfrag hround]

/-- C10, witness: a master playlist whose stream-info line is followed by
a whitespace-only line; selection returns the base URL itself even though
a later URI line exists. -/
theorem C10_witness :
    select_variant_playlist "#EXTM3U\n#EXT-X-STREAM-INF:BANDWIDTH=1\n \nlow.m3u8"
        "http://host/path/" = some "http://host/path/" :=
  C10_blank_uri_selects_base "#EXTM3U\n#EXT-X-STREAM-INF:BANDWIDTH=1\n \nlow.m3u8"
    "http://host/path/" ["#EXTM3U"] "#EXT-X-STREAM-INF:BANDWIDTH=1" " " ["low.m3u8"]
    (by decide) (by decide) (by decide) (by decide) (by decide) (by decide)
